import Mathlib

/-!
Shallow embedding of the sipacker SIP softphone core, written from the
repository sources, together with theorems settling the specification
claims about it.

Conventions of the embedding:
* Rust machine integers are modelled as `Nat` with an explicit `% 2^w`
  exactly where the source wraps (u16 sequence numbers, u32 timestamps).
* Opaque handles owned by the external ezk SIP library (registrations,
  outbound-call handles, spawned tasks, audio channels) are modelled as
  abstract tokens; their fallible operations become explicit
  `Except String` outcomes supplied as parameters.
* `VecDeque::push_back` / `pop_front` become `List` append / head.
* Rust `String` values that the command parser inspects character by
  character are modelled as `List Char`.
-/

namespace Sipacker

/-! ## User agent coordinator (src/sipacker/src/sipacker/user_agent.rs) -/

/-- The `UserAgentEvent` enum of user_agent.rs. -/
inductive UserAgentEvent where
  | callTerminated
  | calling
  | callEstablished
  | registered
  | unregistered
deriving DecidableEq, Repr

/-- The `RegData` struct: registration handle, digest credentials, the
registrar socket (ip, port) and the local user name.  Handles and
credentials held for the external library are opaque tokens. -/
structure RegData where
  registration : Nat
  credentials : Nat
  registrarIp : String
  registrarPort : Nat
  userName : String
deriving DecidableEq, Repr

/-- The coordinator's `OutCall` slot content (an `out_call::OutCall` in
user_agent.rs): channels and spawned tasks are external, so the record is
an opaque token. -/
inductive OutCall where
  | mk
deriving DecidableEq, Repr

/-- The `UserAgent` struct of user_agent.rs: SIP client handle, bound ip,
FIFO event queue, optional registration and optional outbound call. -/
structure UserAgent where
  sipClient : Nat
  ipAddr : String
  events : List UserAgentEvent
  regData : Option RegData
  outCall : Option OutCall
deriving DecidableEq, Repr

/-- Outcome of one `OutCall::run` step, as observed by `update_call`:
either `Ok` carrying at most one event, or an error (user_agent.rs lines
170-189 only inspect `is_err` and the contained event). -/
inductive CallRunResult where
  | ok : Option UserAgentEvent → CallRunResult
  | err
deriving DecidableEq, Repr

/-- `UserAgent::unregister` (user_agent.rs lines 97-100): drop the
registration data and push the `Unregistered` event. -/
def unregister (ua : UserAgent) : UserAgent :=
  { ua with regData := none, events := ua.events ++ [UserAgentEvent.unregistered] }

/-- External outcomes consumed by `UserAgent::make_call`: the target SIP
URI parse, the media-session construction, and the library's
`registration.make_call` (which yields the outbound-call handle wrapped
into the `OutCall` slot). -/
structure MakeCallEnv where
  makeSipUri : Except String Unit
  createMedia : Except String Unit
  makeCallExt : Except String OutCall

/-- `UserAgent::make_call` (user_agent.rs lines 102-127): fail when not
registered, otherwise run the fallible steps in source order and on
success install the outgoing call and push the `Calling` event.  Each `?`
early-return leaves the coordinator state unchanged. -/
def makeCall (ua : UserAgent) (env : MakeCallEnv) : UserAgent × Except String Unit :=
  match ua.regData with
  | none => (ua, Except.error "The user agent is not registered")
  | some _ =>
    match env.makeSipUri with
    | Except.error e => (ua, Except.error e)
    | Except.ok _ =>
      match env.createMedia with
      | Except.error e => (ua, Except.error e)
      | Except.ok _ =>
        match env.makeCallExt with
        | Except.error e => (ua, Except.error e)
        | Except.ok c =>
          ({ ua with outCall := some c, events := ua.events ++ [UserAgentEvent.calling] },
            Except.ok ())

/-- `UserAgent::terminate_call` (user_agent.rs lines 152-158): when a call
is present, cancel it, clear the slot and push `CallTerminated`; when no
call is present, do nothing and still return `Ok`. -/
def terminateCall (ua : UserAgent) : UserAgent × Except String Unit :=
  match ua.outCall with
  | some _ =>
    ({ ua with outCall := none, events := ua.events ++ [UserAgentEvent.callTerminated] },
      Except.ok ())
  | none => (ua, Except.ok ())

/-- `event.is_err()` on the call step outcome (user_agent.rs line 176). -/
def callRunIsErr : CallRunResult → Bool
  | CallRunResult.err => true
  | CallRunResult.ok _ => false

/-- `event.unwrap_or(None)` on the call step outcome (user_agent.rs line 177). -/
def callRunEvent : CallRunResult → Option UserAgentEvent
  | CallRunResult.ok e => e
  | CallRunResult.err => none

/-- `UserAgent::update_call` (user_agent.rs lines 170-189), with the
call's step outcome passed in.  The error is logged and consumed; an
emitted event is queued; on error `CallTerminated` is queued; the slot is
cleared on error or on `CallTerminated`. -/
def updateCall (ua : UserAgent) (r : CallRunResult) : UserAgent :=
  match ua.outCall with
  | none => ua
  | some _ =>
    { ua with
      events :=
        match callRunEvent r with
        | some e => ua.events ++ [e]
        | none =>
          if callRunIsErr r then ua.events ++ [UserAgentEvent.callTerminated]
          else ua.events
      outCall :=
        if callRunIsErr r || decide (callRunEvent r = some UserAgentEvent.callTerminated)
        then none else ua.outCall }

/-- `UserAgent::run` (user_agent.rs lines 160-168): pop and return the
oldest queued event; only when the queue is empty step the call via
`update_call` and return `Ok(None)`. -/
def run (ua : UserAgent) (r : CallRunResult) :
    Except String (UserAgent × Option UserAgentEvent) :=
  match ua.events with
  | e :: rest => Except.ok ({ ua with events := rest }, some e)
  | [] => Except.ok (updateCall ua r, none)

/-- Events returned by `n` successive `run` ticks, stopping at the first
tick that returns no event. -/
def runOutputs (ua : UserAgent) (r : CallRunResult) : Nat → List UserAgentEvent
  | 0 => []
  | n + 1 =>
    match run ua r with
    | Except.ok (ua2, some e) => e :: runOutputs ua2 r n
    | _ => []

lemma runOutputs_drains (r : CallRunResult) :
    ∀ (l : List UserAgentEvent) (ua : UserAgent), ua.events = l →
      runOutputs ua r l.length = l := by
  intro l
  induction l with
  | nil => intro ua h; simp [runOutputs]
  | cons e rest ih =>
    intro ua h
    simp only [List.length_cons, runOutputs, run, h]
    exact congrArg (e :: ·) (ih { ua with events := rest } rfl)

/-- A coordinator state with two queued events, used to witness the
coordinator theorems. -/
def uaTwoEvents : UserAgent :=
  { sipClient := 0
    ipAddr := ""
    events := [UserAgentEvent.registered, UserAgentEvent.calling]
    regData := none
    outCall := some OutCall.mk }

/-- An unregistered, idle coordinator state. -/
def uaIdle : UserAgent :=
  { sipClient := 0
    ipAddr := ""
    events := []
    regData := none
    outCall := none }

/-- Example registration data for the witnesses. -/
def regDataExample : RegData :=
  { registration := 0
    credentials := 0
    registrarIp := "10.0.0.1"
    registrarPort := 5060
    userName := "2502" }

/-- A registered coordinator state with no active call. -/
def uaRegistered : UserAgent :=
  { uaIdle with regData := some regDataExample }

/-- A coordinator state with an active call and an empty event queue. -/
def uaInCall : UserAgent :=
  { uaIdle with outCall := some OutCall.mk }

/-- An environment in which every external step of `make_call` succeeds. -/
def makeCallEnvOk : MakeCallEnv :=
  { makeSipUri := Except.ok ()
    createMedia := Except.ok ()
    makeCallExt := Except.ok OutCall.mk }

/-- C1: with a non-empty queue, `run` returns the oldest queued event,
leaves the call slot untouched and ignores the call-step outcome; and
successive `run` calls return the queued events in FIFO order. -/
theorem run_returns_oldest_event_fifo (ua : UserAgent) (r : CallRunResult)
    (e : UserAgentEvent) (rest : List UserAgentEvent) (h : ua.events = e :: rest) :
    run ua r = Except.ok ({ ua with events := rest }, some e) ∧
    runOutputs ua r ua.events.length = ua.events := by
  constructor
  · simp [run, h]
  · exact runOutputs_drains r ua.events ua rfl

theorem run_returns_oldest_event_fifo_witness :
    run uaTwoEvents CallRunResult.err =
      Except.ok ({ uaTwoEvents with events := [UserAgentEvent.calling] },
        some UserAgentEvent.registered) ∧
    runOutputs uaTwoEvents CallRunResult.err uaTwoEvents.events.length =
      uaTwoEvents.events :=
  run_returns_oldest_event_fifo uaTwoEvents CallRunResult.err UserAgentEvent.registered
    [UserAgentEvent.calling] rfl

/-- C2: `make_call` errors and changes nothing when unregistered; when
registered (and in particular with no active call) and the external steps
succeed, it installs the outgoing call and queues `Calling`. -/
theorem makeCall_registration_precondition (ua : UserAgent) (env : MakeCallEnv) :
    (ua.regData = none →
      makeCall ua env = (ua, Except.error "The user agent is not registered")) ∧
    (∀ rd c, ua.regData = some rd → ua.outCall = none →
      env.makeSipUri = Except.ok () → env.createMedia = Except.ok () →
      env.makeCallExt = Except.ok c →
      makeCall ua env =
        ({ ua with outCall := some c, events := ua.events ++ [UserAgentEvent.calling] },
          Except.ok ())) := by
  constructor
  · intro h; simp [makeCall, h]
  · intro rd c hreg _hcall huri hmedia hext
    simp [makeCall, hreg, huri, hmedia, hext]

theorem makeCall_registration_precondition_witness :
    (makeCall uaIdle makeCallEnvOk =
      (uaIdle, Except.error "The user agent is not registered")) ∧
    (makeCall uaRegistered makeCallEnvOk =
      ({ uaRegistered with outCall := some OutCall.mk, events := uaRegistered.events ++ [UserAgentEvent.calling] },
        Except.ok ())) :=
  ⟨(makeCall_registration_precondition uaIdle makeCallEnvOk).1 rfl,
    (makeCall_registration_precondition uaRegistered makeCallEnvOk).2
      regDataExample OutCall.mk rfl rfl rfl rfl rfl⟩

/-- C3: when the active call's step errors, `update_call` consumes the
error, queues `CallTerminated` and clears the call slot; and `run` itself
always returns `Ok`, never propagating a call error. -/
theorem updateCall_consumes_error (ua : UserAgent) (c : OutCall)
    (h : ua.outCall = some c) :
    updateCall ua CallRunResult.err =
      { ua with events := ua.events ++ [UserAgentEvent.callTerminated], outCall := none } ∧
    ∀ r : CallRunResult, ∃ p, run ua r = Except.ok p := by
  constructor
  · simp [updateCall, callRunEvent, callRunIsErr, h]
  · intro r
    cases hev : ua.events with
    | nil => exact ⟨(updateCall ua r, none), by simp [run, hev]⟩
    | cons e rest => exact ⟨({ ua with events := rest }, some e), by simp [run, hev]⟩

theorem updateCall_consumes_error_witness :
    updateCall uaInCall CallRunResult.err =
      { uaInCall with events := uaInCall.events ++ [UserAgentEvent.callTerminated], outCall := none } ∧
    ∀ r : CallRunResult, ∃ p, run uaInCall r = Except.ok p :=
  updateCall_consumes_error uaInCall OutCall.mk rfl

/-- C7: `unregister` clears the registration, appends exactly one
`Unregistered` event, and leaves every other field — in particular the
call slot — unchanged. -/
theorem unregister_clears_binding_only (ua : UserAgent) :
    (unregister ua).regData = none ∧
    (unregister ua).events = ua.events ++ [UserAgentEvent.unregistered] ∧
    (unregister ua).outCall = ua.outCall ∧
    (unregister ua).sipClient = ua.sipClient ∧
    (unregister ua).ipAddr = ua.ipAddr :=
  ⟨rfl, rfl, rfl, rfl, rfl⟩

/-- C10: with no active call, `terminate_call` returns `Ok` and leaves the
whole coordinator state unchanged — no event, no slot change. -/
theorem terminateCall_without_call_is_noop (ua : UserAgent) (h : ua.outCall = none) :
    terminateCall ua = (ua, Except.ok ()) := by
  simp [terminateCall, h]

theorem terminateCall_without_call_is_noop_witness :
    terminateCall uaIdle = (uaIdle, Except.ok ()) :=
  terminateCall_without_call_is_noop uaIdle rfl

/-! ## RTP packetizer (`mod rtp` in src/sipacker/src/sipacker/call.rs lines
500-535, duplicated in outbound_call.rs lines 154-189 and user_agent.rs).
`SequenceNumber` wraps a u16 and `RtpTimestamp` a u32; the source adds with
the machine width, so the model adds modulo `2^16` / `2^32`.  A `Bytes`
payload is modelled as its byte list. -/

/-- The `RtpPacket` fields filled in by `create_rtp_packet`. -/
structure RtpPacket where
  pt : Nat
  sequenceNumber : Nat
  timestamp : Nat
  payload : List Nat
  ssrc : Nat
deriving DecidableEq, Repr

/-- The `RtpFactory` struct: u16 sequence number, u32 timestamp, u8
payload type. -/
structure RtpFactory where
  rtpSequenceNumber : Nat
  rtpTimestamp : Nat
  rtpPt : Nat
deriving DecidableEq, Repr

/-- `RtpFactory::new`: sequence number and timestamp start at 0. -/
def RtpFactory.new (pt : Nat) : RtpFactory :=
  { rtpSequenceNumber := 0, rtpTimestamp := 0, rtpPt := pt }

/-- `RtpFactory::create_rtp_packet` (call.rs lines 519-533): emit a packet
carrying the current counters, then advance
`seq := seq + 1` in u16 and `ts := ts + payload.len() as u32` in u32. -/
def RtpFactory.createRtpPacket (f : RtpFactory) (payload : List Nat) :
    RtpPacket × RtpFactory :=
  ({ pt := f.rtpPt
     sequenceNumber := f.rtpSequenceNumber
     timestamp := f.rtpTimestamp
     payload := payload
     ssrc := 0 },
    { f with
      rtpSequenceNumber := (f.rtpSequenceNumber + 1) % 65536
      rtpTimestamp := (f.rtpTimestamp + payload.length % 4294967296) % 4294967296 })

/-- Packets emitted by one factory over a sequence of
`create_rtp_packet` calls. -/
def runFactory (f : RtpFactory) : List (List Nat) → List RtpPacket
  | [] => []
  | p :: ps =>
    (f.createRtpPacket p).1 :: runFactory (f.createRtpPacket p).2 ps

/-- `[t, t + l₁, t + l₁ + l₂, …]`: the timestamp of each packet when the
payload lengths are `l₁, l₂, …` and no u32 wrap occurs. -/
def partialSums (t : Nat) : List Nat → List Nat
  | [] => []
  | l :: ls => t :: partialSums (t + l) ls

lemma partialSums_chain (ls : List Nat) :
    ∀ t : Nat, List.Chain' (fun a b => a ≤ b) (partialSums t ls) := by
  induction ls with
  | nil => intro t; simp [partialSums]
  | cons l ls ih =>
    intro t
    rw [partialSums, List.chain'_cons']
    refine ⟨?_, ih (t + l)⟩
    intro y hy
    cases ls with
    | nil => simp [partialSums] at hy
    | cons l2 ls2 =>
      simp only [partialSums, List.head?_cons, Option.mem_def, Option.some.injEq] at hy
      omega

lemma runFactory_length (ps : List (List Nat)) :
    ∀ f : RtpFactory, (runFactory f ps).length = ps.length := by
  induction ps with
  | nil => intro f; rfl
  | cons p ps ih => intro f; simp [runFactory, ih]

lemma runFactory_seq (ps : List (List Nat)) :
    ∀ f : RtpFactory, f.rtpSequenceNumber < 65536 →
      (runFactory f ps).map RtpPacket.sequenceNumber =
        (List.range ps.length).map (fun i => (f.rtpSequenceNumber + i) % 65536) := by
  induction ps with
  | nil => intro f _; simp [runFactory]
  | cons p ps ih =>
    intro f hf
    have hstep : ((f.createRtpPacket p).2).rtpSequenceNumber =
        (f.rtpSequenceNumber + 1) % 65536 := rfl
    have htail := ih (f.createRtpPacket p).2
      (hstep ▸ Nat.mod_lt _ (by omega))
    rw [hstep] at htail
    have hfun : (fun i => ((f.rtpSequenceNumber + 1) % 65536 + i) % 65536) =
        (fun i => (f.rtpSequenceNumber + (i + 1)) % 65536) := by
      funext i
      rw [Nat.mod_add_mod]
      omega
    rw [hfun] at htail
    simp only [runFactory, List.map_cons, List.length_cons, List.range_succ_eq_map,
      List.map_map, htail]
    refine congrArg₂ (· :: ·) ?_ ?_
    · show f.rtpSequenceNumber = (f.rtpSequenceNumber + 0) % 65536
      rw [Nat.add_zero, Nat.mod_eq_of_lt hf]
    · rfl

lemma runFactory_ts (ps : List (List Nat)) :
    ∀ f : RtpFactory, f.rtpTimestamp + (ps.map List.length).sum < 4294967296 →
      (runFactory f ps).map RtpPacket.timestamp =
        partialSums f.rtpTimestamp (ps.map List.length) := by
  induction ps with
  | nil => intro f _; simp [runFactory, partialSums]
  | cons p ps ih =>
    intro f hf
    simp only [List.map_cons, List.sum_cons] at hf
    have hlen : p.length % 4294967296 = p.length := Nat.mod_eq_of_lt (by omega)
    have hstep : ((f.createRtpPacket p).2).rtpTimestamp = f.rtpTimestamp + p.length := by
      show (f.rtpTimestamp + p.length % 4294967296) % 4294967296 = _
      rw [hlen, Nat.mod_eq_of_lt (by omega)]
    have htail := ih (f.createRtpPacket p).2 (by rw [hstep]; omega)
    rw [hstep] at htail
    simp only [runFactory, List.map_cons, partialSums, htail]
    rfl

/-- C4 counterexample: starting from a fresh factory, payloads of lengths
`2^31, 2^31, 1` make the emitted timestamps wrap the u32: the list is
`[0, 2^31, 0]`, which is not non-decreasing. -/
theorem rtp_timestamp_wrap_counterexample :
    (runFactory (RtpFactory.new 8)
        [List.replicate 2147483648 0, List.replicate 2147483648 0, [0]]).map
        RtpPacket.timestamp = [0, 2147483648, 0] ∧
    ¬ List.Chain' (fun a b => a ≤ b) [0, 2147483648, (0 : Nat)] := by
  constructor
  · simp only [runFactory, RtpFactory.createRtpPacket, RtpFactory.new,
      List.map_cons, List.map_nil, List.length_replicate]
  · intro h
    rw [List.chain'_cons, List.chain'_cons] at h
    omega

/-- C4 (amended): each call advances `seq` by one modulo `2^16` and `ts`
by the payload length in u32 arithmetic, emitting the pre-update counters;
over any sequence of calls the sequence numbers are contiguous modulo
`2^16`, and as long as the accumulated payload length stays below `2^32`
the timestamps advance by exactly the payload lengths and are
non-decreasing. -/
theorem rtp_factory_contiguous_and_monotone :
    (∀ (f : RtpFactory) (p : List Nat),
      (f.createRtpPacket p).2.rtpSequenceNumber = (f.rtpSequenceNumber + 1) % 65536 ∧
      (f.createRtpPacket p).2.rtpTimestamp =
        (f.rtpTimestamp + p.length % 4294967296) % 4294967296 ∧
      (f.createRtpPacket p).1.sequenceNumber = f.rtpSequenceNumber ∧
      (f.createRtpPacket p).1.timestamp = f.rtpTimestamp) ∧
    (∀ (pt : Nat) (ps : List (List Nat)),
      (runFactory (RtpFactory.new pt) ps).map RtpPacket.sequenceNumber =
        (List.range ps.length).map (fun i => i % 65536) ∧
      ((ps.map List.length).sum < 4294967296 →
        (runFactory (RtpFactory.new pt) ps).map RtpPacket.timestamp =
          partialSums 0 (ps.map List.length) ∧
        List.Chain' (fun a b => a ≤ b)
          ((runFactory (RtpFactory.new pt) ps).map RtpPacket.timestamp))) := by
  constructor
  · intro f p
    exact ⟨rfl, rfl, rfl, rfl⟩
  · intro pt ps
    constructor
    · have h := runFactory_seq ps (RtpFactory.new pt) (by simp [RtpFactory.new])
      simpa [RtpFactory.new] using h
    · intro hsum
      have h := runFactory_ts ps (RtpFactory.new pt)
        (by simpa [RtpFactory.new] using hsum)
      simp only [RtpFactory.new] at h
      exact ⟨h, h ▸ partialSums_chain (ps.map List.length) 0⟩

theorem rtp_factory_contiguous_and_monotone_witness :
    (([[1, 2], [3, 4, 5]] : List (List Nat)).map List.length).sum < 4294967296 ∧
    ((runFactory (RtpFactory.new 8) [[1, 2], [3, 4, 5]]).map RtpPacket.timestamp =
        partialSums 0 (([[1, 2], [3, 4, 5]] : List (List Nat)).map List.length) ∧
      List.Chain' (fun a b => a ≤ b)
        ((runFactory (RtpFactory.new 8) [[1, 2], [3, 4, 5]]).map RtpPacket.timestamp)) :=
  ⟨by decide,
    (rtp_factory_contiguous_and_monotone.2 8 [[1, 2], [3, 4, 5]]).2 (by decide)⟩

/-! ## Registration controller (src/src/sipacker/registrator.rs) -/

/-- The `CodeKind` enum of the external ezk-sip-types library.  Modelled
from the library contract used by registrator.rs: SIP status codes are
classified by their hundreds digit (1xx provisional, 2xx success, 3xx
redirect, 4xx request failure, 5xx server failure, 6xx global failure);
`other` stands for the classification of any out-of-range code, which
registrator.rs maps through its wildcard arm either way. -/
inductive CodeKind where
  | provisional
  | success
  | redirect
  | requestFailure
  | serverFailure
  | globalFailure
  | other
deriving DecidableEq, Repr

/-- `Code::kind()` of the external library on a numeric SIP status code. -/
def codeKind (code : Nat) : CodeKind :=
  if 100 ≤ code ∧ code ≤ 199 then CodeKind.provisional
  else if 200 ≤ code ∧ code ≤ 299 then CodeKind.success
  else if 300 ≤ code ∧ code ≤ 399 then CodeKind.redirect
  else if 400 ≤ code ∧ code ≤ 499 then CodeKind.requestFailure
  else if 500 ≤ code ∧ code ≤ 599 then CodeKind.serverFailure
  else if 600 ≤ code ∧ code ≤ 699 then CodeKind.globalFailure
  else CodeKind.other

/-- The `RegistrationStatusKind` enum (registrator.rs lines 116-121). -/
inductive RegistrationStatusKind where
  | unregistered
  | failed
  | successful
deriving DecidableEq, Repr

/-- `From<Code> for RegistrationStatusKind` (registrator.rs lines
123-132): Success maps to Successful; Global/Request/Server failure map
to Failed; everything else to Unregistered. -/
def registrationStatusKindOfCode (code : Nat) : RegistrationStatusKind :=
  match codeKind code with
  | CodeKind.success => RegistrationStatusKind.successful
  | CodeKind.globalFailure => RegistrationStatusKind.failed
  | CodeKind.requestFailure => RegistrationStatusKind.failed
  | CodeKind.serverFailure => RegistrationStatusKind.failed
  | _ => RegistrationStatusKind.unregistered

/-- The `RegistrationStatus` struct (registrator.rs lines 103-106). -/
structure RegistrationStatus where
  kind : RegistrationStatusKind
  reason : String
deriving DecidableEq, Repr

/-- `From<StatusLine> for RegistrationStatus` (registrator.rs lines
108-114): kind from the code, reason from the optional reason phrase with
the empty string as default. -/
def registrationStatusOfLine (code : Nat) (reason : Option String) : RegistrationStatus :=
  { kind := registrationStatusKindOfCode code, reason := reason.getD "" }

/-- C5: the status-line-to-RegistrationStatus mapping yields Successful
exactly on 2xx, Failed on 4xx/5xx/6xx, and Unregistered on every other
code. -/
theorem registration_status_code_mapping (code : Nat) (reason : Option String) :
    (200 ≤ code ∧ code ≤ 299 →
      (registrationStatusOfLine code reason).kind = RegistrationStatusKind.successful) ∧
    (400 ≤ code ∧ code ≤ 699 →
      (registrationStatusOfLine code reason).kind = RegistrationStatusKind.failed) ∧
    (¬ (200 ≤ code ∧ code ≤ 299) → ¬ (400 ≤ code ∧ code ≤ 699) →
      (registrationStatusOfLine code reason).kind = RegistrationStatusKind.unregistered) := by
  unfold registrationStatusOfLine registrationStatusKindOfCode codeKind
  refine ⟨?_, ?_, ?_⟩ <;> intros <;> split_ifs <;>
    first
    | rfl
    | omega

theorem registration_status_code_mapping_witness :
    (registrationStatusOfLine 200 (some "OK")).kind = RegistrationStatusKind.successful ∧
    (registrationStatusOfLine 403 (some "Forbidden")).kind = RegistrationStatusKind.failed ∧
    (registrationStatusOfLine 603 none).kind = RegistrationStatusKind.failed ∧
    (registrationStatusOfLine 180 none).kind = RegistrationStatusKind.unregistered :=
  ⟨(registration_status_code_mapping 200 (some "OK")).1 (by decide),
    (registration_status_code_mapping 403 (some "Forbidden")).2.1 (by decide),
    (registration_status_code_mapping 603 none).2.1 (by decide),
    (registration_status_code_mapping 180 none).2.2 (by decide) (by decide)⟩

/-- A spawned registration task handle; `abort` only flips its flag. -/
structure RegTaskHandle where
  aborted : Bool
deriving DecidableEq, Repr

/-- The mutable state of `Registrator` (registrator.rs lines 11-16): the
optional background task handle and the cached last response status line
(kept as its status code). -/
structure Registrator where
  regTask : Option RegTaskHandle
  lastResponseStatus : Option Nat
deriving DecidableEq, Repr

/-- `Registrator::run_registration` (registrator.rs lines 30-39): assert
that no task is stored — modelled as returning `none` when the assertion
fires — then spawn the registering task and store its handle. -/
def runRegistration (r : Registrator) : Option Registrator :=
  match r.regTask with
  | some _ => none
  | none => some { r with regTask := some { aborted := false } }

/-- `Registrator::stop_registration` (registrator.rs lines 75-81): when a
task handle is stored, abort the task and clear the cached status; the
handle itself stays stored. -/
def stopRegistration (r : Registrator) : Registrator :=
  match r.regTask with
  | some t =>
    { r with regTask := some { t with aborted := true }, lastResponseStatus := none }
  | none => r

/-- C8: on a fresh Registrator the first `run_registration` succeeds, but
after `stop_registration` the task handle is still stored, so the second
`run_registration` finds `reg_task` non-empty and its assertion fires —
contradicting both the claim and the assertion's own message. -/
theorem registrator_restart_assertion_fires :
    runRegistration { regTask := none, lastResponseStatus := none } =
      some { regTask := some { aborted := false }, lastResponseStatus := none } ∧
    stopRegistration { regTask := some { aborted := false }, lastResponseStatus := none } =
      { regTask := some { aborted := true }, lastResponseStatus := none } ∧
    runRegistration { regTask := some { aborted := true }, lastResponseStatus := none } =
      none :=
  ⟨rfl, rfl, rfl⟩

/-! ## Incoming call decline paths
(src/sipacker/src/sipacker/call.rs, `mod incoming`) -/

/-- The `DeclineCode` enum (call.rs lines 183-187). -/
inductive DeclineCode where
  | busy
  | serverInternalError
  | userDeclined
deriving DecidableEq, Repr

/-- `From<DeclineCode> for StatusCode` (call.rs lines 189-197), with the
library constants `BUSY_HERE = 486`, `SERVER_INTERNAL_ERROR = 500` and
`DECLINE = 603`. -/
def DeclineCode.statusCode : DeclineCode → Nat
  | DeclineCode.busy => 486
  | DeclineCode.serverInternalError => 500
  | DeclineCode.userDeclined => 603

/-- The `IncomingCallAction` enum (call.rs lines 199-208); the audio
channels carried by `Accept` are external handles. -/
inductive IncomingCallAction where
  | accept
  | decline (code : DeclineCode) (reason : String)
deriving DecidableEq, Repr

/-- Which branch of the `select!` in `run_calling_task` (call.rs lines
267-272) fires first: an action arrives on the channel, the channel
closes (`recv` returns `None`), or the cancellation token fires. -/
inductive RaceOutcome where
  | received (a : IncomingCallAction)
  | channelClosed
  | cancelled
deriving DecidableEq, Repr

/-- What the incoming-call task does before finishing: construct the
established call, send a SIP decline and finish cleanly (`Ok(None)`),
send a decline and finish with an error, or fail in the library's
`accept()`. -/
inductive IncomingTaskResult where
  | established
  | declinedOk (status : Nat) (reason : String)
  | declinedErr (status : Nat) (reason : String) (errMsg : String)
  | acceptFailed
deriving DecidableEq, Repr

/-- `WaitingForAction::handle_action` (call.rs lines 289-309): `Accept`
runs the library's `accept()` (outcome passed in) and builds Established;
`Decline` sends the mapped status code and the chosen reason. -/
def handleAction (acceptOk : Bool) : IncomingCallAction → IncomingTaskResult
  | IncomingCallAction.accept =>
    if acceptOk then IncomingTaskResult.established else IncomingTaskResult.acceptFailed
  | IncomingCallAction.decline code reason =>
    IncomingTaskResult.declinedOk code.statusCode reason

/-- `WaitingForAction::run_calling_task` (call.rs lines 262-287):
cancellation is turned into a `Decline{UserDeclined, "The call
cancelled"}` action; a closed channel declines with 500 and the message
"Action channel is closed" and then errors with the same message. -/
def runCallingTask (acceptOk : Bool) : RaceOutcome → IncomingTaskResult
  | RaceOutcome.received a => handleAction acceptOk a
  | RaceOutcome.cancelled =>
    handleAction acceptOk
      (IncomingCallAction.decline DeclineCode.userDeclined "The call cancelled")
  | RaceOutcome.channelClosed =>
    IncomingTaskResult.declinedErr 500 "Action channel is closed" "Action channel is closed"

/-- C6: a closed action channel declines with 500 and the close-cause
message; cancellation before any action declines with 603 and "The call
cancelled"; and the decline-code mapping sends Busy to 486,
ServerInternalError to 500 and UserDeclined to 603. -/
theorem incoming_call_decline_paths :
    (∀ acceptOk : Bool,
      runCallingTask acceptOk RaceOutcome.channelClosed =
        IncomingTaskResult.declinedErr 500 "Action channel is closed"
          "Action channel is closed") ∧
    (∀ acceptOk : Bool,
      runCallingTask acceptOk RaceOutcome.cancelled =
        IncomingTaskResult.declinedOk 603 "The call cancelled") ∧
    DeclineCode.statusCode DeclineCode.busy = 486 ∧
    DeclineCode.statusCode DeclineCode.serverInternalError = 500 ∧
    DeclineCode.statusCode DeclineCode.userDeclined = 603 :=
  ⟨fun _ => rfl, fun _ => rfl, rfl, rfl, rfl⟩

/-! ## CLI command parser (src/sipacker/src/app/cli_input.rs).
Rust strings handled by the parser are modelled as `List Char`; string
literals of the source appear as `"…".data`.  The external pieces — the
process environment consulted by `env:`-passwords and the library's
`HostPort` parser — are passed in as functions. -/

/-- The `Command` enum of src/sipacker/src/app/command.rs as produced by
the parsers: `Register` carries the user name, the digest credential
(user, password) and the parsed registrar host. -/
inductive Command where
  | register (userName : List Char) (credentialUser : List Char)
      (credentialPassword : List Char) (registrar : List Char)
  | unregister
  | makeCall (targetUserName : List Char)
  | acceptCall
  | declineCall
  | terminateCall
  | stopApp
deriving DecidableEq, Repr

/-- The `CommandParserError` enum (cli_input.rs lines 117-121). -/
inductive CommandParserError where
  | command
  | arguments (msg : String)
deriving DecidableEq, Repr

/-- Rust's `str::split(c)`: split at every occurrence of `c`, keeping
empty pieces, with `n` separators yielding `n + 1` pieces. -/
def splitChar (c : Char) : List Char → List (List Char)
  | [] => [[]]
  | x :: xs =>
    match splitChar c xs with
    | [] => if x = c then [[], []] else [[x]]
    | h :: t => if x = c then [] :: h :: t else (x :: h) :: t

/-- `Parser::parse_field` (cli_input.rs lines 357-373): split the token at
`=`; the piece before the first `=` is the name, the piece after it the
value; a third piece is an error. -/
def parseField (token : List Char) : Except String (List Char × List Char) :=
  match splitChar '=' token with
  | [] => Except.error "Field name is missing"
  | [_] => Except.error "Field value is missing"
  | [n, v] => Except.ok (n, v)
  | _ => Except.error "There are more than 1 = in the field"

/-- `HashMap::insert`: bind `name` to `value`, replacing any previous
binding. -/
def insertField : List (List Char × List Char) → List Char → List Char →
    List (List Char × List Char)
  | [], n, v => [(n, v)]
  | (k, w) :: rest, n, v =>
    if k = n then (k, v) :: rest else (k, w) :: insertField rest n v

/-- `HashMap::get`. -/
def lookupField (data : List (List Char × List Char)) (name : List Char) :
    Option (List Char) :=
  (data.find? (fun kv => kv.1 == name)).map Prod.snd

/-- `Parser::parse` (cli_input.rs lines 341-355): split the remainder of
the line at spaces, parse each non-empty `key=value` token, accept only
whitelisted field names. -/
def parseFields (fields : List (List Char)) (line : List Char) :
    Except String (List (List Char × List Char)) :=
  ((splitChar ' ' line).filter (fun t => !t.isEmpty)).foldlM
    (fun data token =>
      match parseField token with
      | Except.error e => Except.error e
      | Except.ok (n, v) =>
        if fields.contains n then Except.ok (insertField data n v)
        else Except.error ("Unknown field: " ++ String.mk n))
    []

/-- `RegisterParser::parse_password` (cli_input.rs lines 149-163): default
empty password; an `env:VAR` password is resolved from the process
environment, failing when the variable name is missing or unset. -/
def parsePassword (env : List Char → Option (List Char))
    (data : List (List Char × List Char)) : Except String (List Char) :=
  let password := (lookupField data "password".data).getD []
  if "env:".data.isPrefixOf password then
    match (splitChar ':' password).drop 1 with
    | [] => Except.error "The password env variable is not specified"
    | envName :: _ =>
      match env envName with
      | some v => Except.ok v
      | none => Except.error ("environment variable not found: " ++ String.mk envName)
  else Except.ok password

/-- Rust's `str::trim_start_matches(pat)`: repeatedly strip the pattern
from the front while it matches; fuelled by the line length. -/
def trimStartAllAux (p : List Char) : Nat → List Char → List Char
  | 0, s => s
  | n + 1, s =>
    if !p.isEmpty && p.isPrefixOf s then trimStartAllAux p n (s.drop p.length) else s

/-- `line.trim_start_matches(pat)`. -/
def trimStartMatches (s p : List Char) : List Char :=
  trimStartAllAux p s.length s

/-- `misc::trim_newline` (cli_input.rs lines 399-406): pop a trailing
`\n`, then a trailing `\r`. -/
def trimNewline (s : List Char) : List Char :=
  if s.getLast? = some '\n' then
    if s.dropLast.getLast? = some '\r' then s.dropLast.dropLast else s.dropLast
  else s

/-- `RegisterParser::parse` (cli_input.rs lines 166-193). -/
def registerParse (env : List Char → Option (List Char))
    (parseHostPort : List Char → Except String (List Char))
    (line : List Char) : Except CommandParserError Command :=
  if "register".data.isPrefixOf line then
    match parseFields ["user".data, "password".data, "registrar".data]
        (trimStartMatches line "register".data) with
    | Except.error e => Except.error (CommandParserError.arguments e)
    | Except.ok data =>
      match lookupField data "user".data with
      | none => Except.error (CommandParserError.arguments "\"user\" field is missing")
      | some userName =>
        match lookupField data "registrar".data with
        | none =>
          Except.error (CommandParserError.arguments "\"registrar\" field is missing")
        | some registrar =>
          match parsePassword env data with
          | Except.error e => Except.error (CommandParserError.arguments e)
          | Except.ok password =>
            match parseHostPort registrar with
            | Except.error e => Except.error (CommandParserError.arguments e)
            | Except.ok host => Except.ok (Command.register userName userName password host)
  else Except.error CommandParserError.command

/-- `UnregisterParser::parse` (cli_input.rs lines 208-215). -/
def unregisterParse (line : List Char) : Except CommandParserError Command :=
  if "unregister".data.isPrefixOf line then Except.ok Command.unregister
  else Except.error CommandParserError.command

/-- `MakeCallParser::parse` (cli_input.rs lines 233-251). -/
def makeCallParse (line : List Char) : Except CommandParserError Command :=
  if "call".data.isPrefixOf line then
    match parseFields ["user".data] (trimStartMatches line "call".data) with
    | Except.error e => Except.error (CommandParserError.arguments e)
    | Except.ok data =>
      match lookupField data "user".data with
      | none => Except.error (CommandParserError.arguments "\"user\" field is missing")
      | some target => Except.ok (Command.makeCall target)
  else Except.error CommandParserError.command

/-- `AcceptCallParser::parse` (cli_input.rs lines 266-273). -/
def acceptCallParse (line : List Char) : Except CommandParserError Command :=
  if "accept call".data.isPrefixOf line then Except.ok Command.acceptCall
  else Except.error CommandParserError.command

/-- `DeclineCallParser::parse` (cli_input.rs lines 288-295). -/
def declineCallParse (line : List Char) : Except CommandParserError Command :=
  if "decline call".data.isPrefixOf line then Except.ok Command.declineCall
  else Except.error CommandParserError.command

/-- `TerminateCallParser::parse` (cli_input.rs lines 310-317). -/
def terminateCallParse (line : List Char) : Except CommandParserError Command :=
  if "terminate call".data.isPrefixOf line then Except.ok Command.terminateCall
  else Except.error CommandParserError.command

/-- `CliInputSystem::parse_command` (cli_input.rs lines 83-114): an empty
line — empty before the newline is trimmed — yields `StopApp`; otherwise
trim the newline and take the first parser that returns success or an
argument error (skipping wrong-command errors); argument errors are
logged and yield no command, as does finding no parser at all. -/
def parseCommand (env : List Char → Option (List Char))
    (parseHostPort : List Char → Except String (List Char))
    (line : List Char) : Option Command :=
  if line.isEmpty then some Command.stopApp
  else
    match
      ([registerParse env parseHostPort (trimNewline line),
        unregisterParse (trimNewline line),
        makeCallParse (trimNewline line),
        acceptCallParse (trimNewline line),
        declineCallParse (trimNewline line),
        terminateCallParse (trimNewline line)].findSome?
        (fun r =>
          match r with
          | Except.ok c => some (Except.ok c)
          | Except.error (CommandParserError.arguments m) =>
            some (Except.error (CommandParserError.arguments m))
          | Except.error CommandParserError.command => none))
    with
    | some (Except.ok c) => some c
    | some (Except.error _) => none
    | none => none

/-- C9 counterexample: the line an operator produces by entering nothing
before the line terminator is `"\n"`, and on it `parse_command` yields no
command at all (the empty check runs before the newline is trimmed, so
the line falls through every parser to the unknown-command branch). -/
theorem parse_command_enter_only_counterexample :
    parseCommand (fun _ => none) (fun _ => Except.error "") ['\n'] = none ∧
    parseCommand (fun _ => none) (fun _ => Except.error "") ['\n'] ≠
      some Command.stopApp := by
  constructor
  · rfl
  · decide

/-- C9 (amended): `StopApp` is produced exactly for a line that is empty
as read — no characters at all, as at end of input — while a line
consisting only of the line terminator produces no command. -/
theorem parse_command_empty_line_stopapp
    (env : List Char → Option (List Char))
    (parseHostPort : List Char → Except String (List Char)) :
    parseCommand env parseHostPort [] = some Command.stopApp ∧
    parseCommand env parseHostPort ['\n'] = none ∧
    parseCommand env parseHostPort ['\r', '\n'] = none :=
  ⟨rfl, rfl, rfl⟩

end Sipacker
